import Mathlib

/-!
Shallow embedding of the Omni-Fix AR repair-session orchestrator,
translated from src/App.tsx together with the data shapes of src/types.ts.

Each React useState hook of App.tsx becomes a field of a Session record and
each event handler becomes a function on Session. Asynchronous continuations
(the promise resolution of each oracle call and the verification timeout
callback) are modelled as Pending entries that carry exactly the values the
corresponding JS closure captured at issuance; a resolve event removes the
entry and runs the continuation on the then-current session. User events are
guarded by the rendering conditions of the JSX in App.tsx. The remote oracle
(services/geminiService.ts, which is not under src) is treated as
nondeterministic: its results are event parameters.
-/

namespace OmniFix

/-- AppState enum, translated from src/types.ts lines 1-10. -/
inductive AppState where
  | INTRO
  | CAMERA_READY
  | ANALYZING
  | REPAIR_GUIDE
  | VERIFYING
  | INSPECTING
  | COMPLETED
  | ERROR
deriving DecidableEq

/-- Coordinates, from src/types.ts lines 12-17 (normalized 0-1 box). -/
structure Coordinates where
  ymin : ℚ
  xmin : ℚ
  ymax : ℚ
  xmax : ℚ
deriving DecidableEq

/-- The type tag of a VisualCue, from src/types.ts line 20. -/
inductive CueType where
  | box
  | arrow
  | point
  | nocue
deriving DecidableEq

/-- VisualCue, from src/types.ts lines 19-24. -/
structure VisualCue where
  type : CueType
  coordinates : Coordinates
  label : Option String
  direction : Option String
deriving DecidableEq

/-- RepairStep, from src/types.ts lines 26-33. -/
structure RepairStep where
  id : Nat
  title : String
  instruction : String
  visualCue : VisualCue
  toolNeeded : Option String
  safetyWarning : Option String
deriving DecidableEq

/-- RepairPlan, from src/types.ts lines 35-39. -/
structure RepairPlan where
  objectName : String
  issueDiagnosis : String
  steps : List RepairStep
deriving DecidableEq

/-- Status of an inspected component, from src/types.ts line 44. -/
inductive CompStatus where
  | Good
  | Damaged
  | Unknown
deriving DecidableEq

/-- ComponentInfo, from src/types.ts lines 41-46. -/
structure ComponentInfo where
  name : String
  function : String
  status : CompStatus
  details : String
deriving DecidableEq

/-- Result shape of the verify-step oracle call (verifyRepairStep),
used at src/App.tsx lines 101-111. -/
structure VerifyResult where
  completed : Bool
  feedback : String
deriving DecidableEq

/-- A normalized percentage point (0-100 on each axis), the shape stored in
the inspectorPoint hook at src/App.tsx line 22. -/
structure NormPoint where
  x : ℚ
  y : ℚ
deriving DecidableEq

/-- The bounding client rect of the display container, as read at
src/App.tsx line 145. -/
structure Rect where
  left : ℚ
  top : ℚ
  width : ℚ
  height : ℚ
deriving DecidableEq

/-- The data-url wrapper applied when a captured base64 frame is stored in
the capturedImage hook, from src/App.tsx lines 73, 110 and 164. -/
def dataUrl (base64 : String) : String := "data:image/jpeg;base64," ++ base64

/-- The coordinate mapper of handleVideoClick, src/App.tsx lines 145-151:
x := clientX - rect.left, then xPct := x / rect.width * 100, and the same
for y over top and height, with the intermediate x and y substituted in. -/
def mapCoord (clientX clientY : ℚ) (r : Rect) : NormPoint :=
  { x := (clientX - r.left) / r.width * 100
    y := (clientY - r.top) / r.height * 100 }

/-- The coordinate mapper as the spec words it (section 4.3):
x = 100*(clientX - rect.left)/rect.width, y analogous. Stated separately so
that mapCoord, translated from the source, can be compared against it. -/
def specNormPoint (clientX clientY : ℚ) (r : Rect) : NormPoint :=
  { x := 100 * (clientX - r.left) / r.width
    y := 100 * (clientY - r.top) / r.height }

/-- An asynchronous continuation still outstanding. Each entry records the
values captured by the corresponding JS closure at issuance:
scan and identify record the frame sent to the oracle; verify records the
repairPlan and currentStepIndex captured by the setTimeout callback of
handleVerifyStep (src/App.tsx lines 92-113); ask records the values captured
by the onstop chain of stopListening (src/App.tsx lines 209-229). -/
inductive Pending where
  | scan (frame : String)
  | identify (frame : String)
  | verify (planSnap : Option RepairPlan) (idxSnap : Nat)
  | ask (planSnap : Option RepairPlan) (idxSnap : Nat)
deriving DecidableEq

/-- Whether a pending continuation belongs to an oracle call that referenced
a captured image at issuance through the frozen-frame mechanism (the scan
plan-from-image call and the inspect identify-component call). -/
def Pending.isImage : Pending → Bool
  | .scan _ => true
  | .identify _ => true
  | _ => false

/-- The session state: one field per useState hook of src/App.tsx lines
10-23, plus hasStream / mediaRecorderSet / recording for the refs of lines
25-29 (videoRef.srcObject assigned at line 41, mediaRecorderRef at line 193,
recorder.start at line 200), plus the outstanding asynchronous
continuations. -/
structure Session where
  appState : AppState
  repairPlan : Option RepairPlan
  currentStepIndex : Nat
  errorMsg : Option String
  cameraActive : Bool
  capturedImage : Option String
  isListening : Bool
  assistantResponse : Option String
  inspectorPoint : Option NormPoint
  componentInfo : Option ComponentInfo
  hasStream : Bool
  mediaRecorderSet : Bool
  recording : Bool
  pending : List Pending
deriving DecidableEq

/-- Initial session: the useState initials of src/App.tsx lines 10-23. -/
def initSession : Session :=
  { appState := .INTRO
    repairPlan := none
    currentStepIndex := 0
    errorMsg := none
    cameraActive := false
    capturedImage := none
    isListening := false
    assistantResponse := none
    inspectorPoint := none
    componentInfo := none
    hasStream := false
    mediaRecorderSet := false
    recording := false
    pending := [] }

/-- startCamera, src/App.tsx lines 32-47. The getUserMedia result is the
granted parameter: on success the stream is attached to the video element,
on failure the handler sets the permission error and the ERROR state. -/
def startCamera (s : Session) (granted : Bool) : Session :=
  if granted then
    { s with appState := .CAMERA_READY, cameraActive := true, hasStream := true }
  else
    { s with cameraActive := true
             errorMsg := some "Camera/Mic access denied. Please enable permissions."
             appState := .ERROR }

/-- handleScan up to its suspension point, src/App.tsx lines 68-75: capture
a frame (cap = none models captureFrame returning null, line 70), freeze it
as a data url, enter ANALYZING, and issue the plan-from-image call. -/
def handleScan (s : Session) (cap : Option String) : Session :=
  match cap with
  | none => s
  | some base64 =>
    { s with capturedImage := some (dataUrl base64)
             appState := .ANALYZING
             pending := s.pending ++ [.scan base64] }

/-- Continuation of handleScan after analyzeImageAndCreatePlan settles,
src/App.tsx lines 77-85: result = some plan on fulfilment, none on
rejection (the catch branch). -/
def scanResolve (s : Session) (result : Option RepairPlan) : Session :=
  match result with
  | some plan =>
    { s with repairPlan := some plan
             currentStepIndex := 0
             appState := .REPAIR_GUIDE }
  | none =>
    { s with errorMsg := some "Gemini could not identify the issue. Please try again with better lighting."
             appState := .ERROR }

/-- handleNextStep as a closure over the render-time values planSnap and
idxSnap, src/App.tsx lines 116-127. The guard reads the captured values,
while setCurrentStepIndex uses a functional update (prev => prev + 1) and
therefore increments the live index. -/
def handleNextStepWith (s : Session) (planSnap : Option RepairPlan) (idxSnap : Nat) : Session :=
  match planSnap with
  | none => { s with assistantResponse := none }
  | some plan =>
    if idxSnap < plan.steps.length - 1 then
      { s with assistantResponse := none
               currentStepIndex := s.currentStepIndex + 1
               capturedImage := none
               appState := .REPAIR_GUIDE }
    else
      { s with assistantResponse := none, appState := .COMPLETED }

/-- handleNextStep invoked synchronously from the current render, so the
captured values coincide with the live ones. -/
def handleNextStep (s : Session) : Session :=
  handleNextStepWith s s.repairPlan s.currentStepIndex

/-- handleVerifyStep up to the setTimeout, src/App.tsx lines 88-92: clear
the frozen frame, enter VERIFYING, and register the timeout callback, which
captures the render-time repairPlan and currentStepIndex. -/
def handleVerifyStepStart (s : Session) : Session :=
  { s with capturedImage := none
           appState := .VERIFYING
           pending := s.pending ++ [.verify s.repairPlan s.currentStepIndex] }

/-- The verification callback, src/App.tsx lines 92-113, running against the
captured planSnap and idxSnap: a failed capture silently returns to
REPAIR_GUIDE; otherwise, on completed the captured handleNextStep closure
runs, and on not-completed the feedback is recorded with the prefix
"Verification Info: ", the checked frame is frozen, and the state returns to
REPAIR_GUIDE. -/
def verifyCallback (s : Session) (planSnap : Option RepairPlan) (idxSnap : Nat)
    (cap : Option String) (result : VerifyResult) : Session :=
  match cap with
  | none => { s with appState := .REPAIR_GUIDE }
  | some base64 =>
    match planSnap with
    | none => s
    | some _ =>
      if result.completed then
        handleNextStepWith s planSnap idxSnap
      else
        { s with assistantResponse := some ("Verification Info: " ++ result.feedback)
                 appState := .REPAIR_GUIDE
                 capturedImage := some (dataUrl base64) }

/-- handleVideoClick up to its suspension point, src/App.tsx lines 130-166:
ignore the tap unless the state is REPAIR_GUIDE with a plan; map the tap to
percentage coordinates, set the inspector point, enter INSPECTING; if the
capture fails fall back to REPAIR_GUIDE, otherwise freeze the frame and
issue the identify-component call. -/
def handleVideoClick (s : Session) (clientX clientY : ℚ) (r : Rect) (cap : Option String) :
    Session :=
  if s.appState = AppState.REPAIR_GUIDE ∧ s.repairPlan ≠ none then
    match cap with
    | none =>
      { s with inspectorPoint := some (mapCoord clientX clientY r)
               appState := .REPAIR_GUIDE }
    | some base64 =>
      { s with inspectorPoint := some (mapCoord clientX clientY r)
               appState := .INSPECTING
               capturedImage := some (dataUrl base64)
               pending := s.pending ++ [.identify base64] }
  else s

/-- Continuation of handleVideoClick after identifyComponentAtPoint
resolves, src/App.tsx lines 166-168: the info is stored unconditionally,
with no staleness check. -/
def identifyResolve (s : Session) (info : ComponentInfo) : Session :=
  { s with componentInfo := some info }

/-- closeInspector, src/App.tsx lines 171-176. -/
def closeInspector (s : Session) : Session :=
  { s with inspectorPoint := none
           componentInfo := none
           capturedImage := none
           appState := .REPAIR_GUIDE }

/-- startListening, src/App.tsx lines 180-201: the response text and the
listening flag are set first; then the handler returns early when the video
element has no stream or the stream has no audio track, and otherwise
creates the recorder and starts recording. -/
def startListening (s : Session) (hasAudioTrack : Bool) : Session :=
  if !s.hasStream then
    { s with assistantResponse := some "Listening...", isListening := true }
  else if !hasAudioTrack then
    { s with assistantResponse := some "Listening...", isListening := true }
  else
    { s with assistantResponse := some "Listening..."
             isListening := true
             mediaRecorderSet := true
             recording := true }

/-- stopListening up to its suspension point, src/App.tsx lines 203-212:
a no-op without a recorder; otherwise stop recording, clear the listening
flag, show the thinking message, and register the onstop chain, which
captures the render-time repairPlan and currentStepIndex. -/
def stopListening (s : Session) : Session :=
  if !s.mediaRecorderSet then s
  else
    { s with isListening := false
             recording := false
             assistantResponse := some "Thinking..."
             pending := s.pending ++ [.ask s.repairPlan s.currentStepIndex] }

/-- Continuation of the onstop chain of stopListening, src/App.tsx lines
213-228: the context frame is captured and, when both the frame and the
captured plan are present, the assistant answer is stored. -/
def askResolve (s : Session) (planSnap : Option RepairPlan) (cap : Option String)
    (response : String) : Session :=
  match cap, planSnap with
  | some _, some _ => { s with assistantResponse := some response }
  | _, _ => s

/-- resetApp, src/App.tsx lines 242-249. It does not cancel outstanding
timeouts or promise continuations and does not clear the inspector hooks. -/
def resetApp (s : Session) : Session :=
  { s with repairPlan := none
           currentStepIndex := 0
           capturedImage := none
           errorMsg := none
           assistantResponse := none
           appState := .CAMERA_READY }

/-- One interaction event: either a user gesture, guarded by the JSX
rendering conditions of App.tsx, or the resolution of an outstanding
asynchronous continuation (index n into the pending list). Oracle outcomes
ride on the events because the oracle (services/geminiService.ts) is not
under src. -/
inductive Event where
  | startCameraClick (granted : Bool)
  | scanClick (cap : Option String)
  | scanDone (n : Nat) (result : Option RepairPlan)
  | verifyClick
  | verifyFire (n : Nat) (cap : Option String) (result : VerifyResult)
  | nextClick
  | videoClick (clientX clientY : ℚ) (r : Rect) (cap : Option String)
  | identifyDone (n : Nat) (info : ComponentInfo)
  | closeClick
  | resetClick
  | listenStart (hasAudioTrack : Bool)
  | listenStop
  | askDone (n : Nat) (cap : Option String) (response : String)

/-- Whether an event is the firing of a verification timeout callback. -/
def Event.isVerifyFire : Event → Bool
  | .verifyFire _ _ _ => true
  | _ => false

/-- Rendering condition of the StepCard block, src/App.tsx line 397.
Modelled from the spec: StepCard (components/StepCard.tsx, not under src)
exposes its verify and next buttons while the guide is interactive, and the
spec (section 4.1) makes verifyCurrentStep and the explicit next action
valid only in REPAIR_GUIDE. -/
def stepButtonsActive (s : Session) : Prop :=
  s.appState = AppState.REPAIR_GUIDE ∧ s.repairPlan ≠ none

instance (s : Session) : Decidable (stepButtonsActive s) := by
  unfold stepButtonsActive; infer_instance

/-- Rendering condition of the assistant press-and-hold control: the
StepCard block is rendered at src/App.tsx line 397 for REPAIR_GUIDE and
VERIFYING with a plan. -/
def assistActive (s : Session) : Prop :=
  (s.appState = AppState.REPAIR_GUIDE ∨ s.appState = AppState.VERIFYING) ∧
    s.repairPlan ≠ none

instance (s : Session) : Decidable (assistActive s) := by
  unfold assistActive; infer_instance

/-- Rendering condition of a resetApp button: the header close button at
src/App.tsx lines 397-410, the completion screen button at lines 430-441,
and the error screen button at lines 446-457. -/
def resetVisible (s : Session) : Prop :=
  ((s.appState = AppState.REPAIR_GUIDE ∨ s.appState = AppState.VERIFYING) ∧
      s.repairPlan ≠ none) ∨
    s.appState = AppState.COMPLETED ∨ s.appState = AppState.ERROR

instance (s : Session) : Decidable (resetVisible s) := by
  unfold resetVisible; infer_instance

/-- Rendering condition of the Resume Repair button that calls
closeInspector, src/App.tsx lines 299-336: the inspector card with the
button is rendered only in INSPECTING with a point and with componentInfo
present (otherwise the loading card, which has no button, is shown). -/
def closeVisible (s : Session) : Prop :=
  s.appState = AppState.INSPECTING ∧ s.inspectorPoint ≠ none ∧ s.componentInfo ≠ none

instance (s : Session) : Decidable (closeVisible s) := by
  unfold closeVisible; infer_instance

/-- Apply one event to the session. User gestures outside their rendering
condition leave the session unchanged; resolve events whose index does not
name a pending continuation of the right kind leave it unchanged. -/
def applyEvent (s : Session) (e : Event) : Session :=
  match e with
  | .startCameraClick granted =>
    if s.appState = AppState.INTRO then startCamera s granted else s
  | .scanClick cap =>
    if s.appState = AppState.CAMERA_READY then handleScan s cap else s
  | .scanDone n result =>
    match s.pending[n]? with
    | some (.scan _) =>
      scanResolve { s with pending := s.pending.eraseIdx n }
        (match result with
         | some plan => if plan.steps.isEmpty then none else some plan
         | none => none)
    | _ => s
  | .verifyClick =>
    if stepButtonsActive s then handleVerifyStepStart s else s
  | .verifyFire n cap result =>
    match s.pending[n]? with
    | some (.verify planSnap idxSnap) =>
      verifyCallback { s with pending := s.pending.eraseIdx n } planSnap idxSnap cap result
    | _ => s
  | .nextClick =>
    if stepButtonsActive s then handleNextStep s else s
  | .videoClick clientX clientY r cap =>
    handleVideoClick s clientX clientY r cap
  | .identifyDone n info =>
    match s.pending[n]? with
    | some (.identify _) =>
      identifyResolve { s with pending := s.pending.eraseIdx n } info
    | _ => s
  | .closeClick =>
    if closeVisible s then closeInspector s else s
  | .resetClick =>
    if resetVisible s then resetApp s else s
  | .listenStart hasAudioTrack =>
    if assistActive s then startListening s hasAudioTrack else s
  | .listenStop =>
    if assistActive s then stopListening s else s
  | .askDone n cap response =>
    match s.pending[n]? with
    | some (.ask planSnap _) =>
      askResolve { s with pending := s.pending.eraseIdx n } planSnap cap response
    | _ => s

/-- Run a sequence of events from a session. -/
def run (s : Session) (es : List Event) : Session := es.foldl applyEvent s

/-- A fixed visual cue used by the concrete test plans. -/
def sampleCue : VisualCue :=
  { type := .box
    coordinates := { ymin := 0, xmin := 0, ymax := 1, xmax := 1 }
    label := none
    direction := none }

/-- A concrete repair step used by the test plans. -/
def mkStep (i : Nat) : RepairStep :=
  { id := i
    title := "step"
    instruction := "turn the screw"
    visualCue := sampleCue
    toolNeeded := none
    safetyWarning := none }

/-- A five-step plan. -/
def planA : RepairPlan :=
  { objectName := "desk fan"
    issueDiagnosis := "bent blade"
    steps := [mkStep 1, mkStep 2, mkStep 3, mkStep 4, mkStep 5] }

/-- A one-step plan. -/
def planB : RepairPlan :=
  { objectName := "lamp"
    issueDiagnosis := "loose bulb"
    steps := [mkStep 1] }

/-- A concrete display container rect. -/
def rect0 : Rect := { left := 0, top := 0, width := 100, height := 100 }

/-- A concrete component identification used as a stale oracle result. -/
def staleInfo : ComponentInfo :=
  { name := "fuse"
    function := "protects the circuit"
    status := .Unknown
    details := "stale identification" }

/-- Number of outstanding image-referencing oracle calls. -/
def countImage (l : List Pending) : Nat := (l.filter Pending.isImage).length

/-- What the session must satisfy for one outstanding continuation: an
in-flight image-referencing call keeps exactly the frame it sent frozen,
with the session still in the state that issued it, and for an identify
call with the info card not yet filled. -/
def pendingOk (s : Session) : Pending → Prop
  | .scan f => s.capturedImage = some (dataUrl f) ∧ s.appState = AppState.ANALYZING
  | .identify f =>
      s.capturedImage = some (dataUrl f) ∧ s.appState = AppState.INSPECTING ∧
        s.componentInfo = none
  | .verify _ _ => True
  | .ask _ _ => True

/-- Frozen-frame integrity invariant: at most one image-referencing oracle
call is in flight, the inspector info card is empty outside INSPECTING, and
every in-flight image call satisfies pendingOk. -/
def ImgInv (s : Session) : Prop :=
  countImage s.pending ≤ 1 ∧
    (s.appState ≠ AppState.INSPECTING → s.componentInfo = none) ∧
    ∀ p ∈ s.pending, pendingOk s p

/-- Events bringing a fresh session to REPAIR_GUIDE with the five-step plan
and step cursor 0: grant the camera, scan, and receive the plan. -/
def warmupEvents : List Event :=
  [.startCameraClick true, .scanClick (some "img1"), .scanDone 0 (some planA)]

/-- The session reached by warmupEvents. -/
def guideSession : Session := run initSession warmupEvents

/-- A session holding a pending scan: camera granted, scan issued, oracle
still outstanding. -/
def scanningSession : Session :=
  run initSession [.startCameraClick true, .scanClick (some "img1")]

/-- Event sequence on which a stale verification callback pushes the step
cursor out of bounds: advance to step 2 of the five-step plan, start a
verification, reset during VERIFYING (the header close button is rendered
then), scan a new object whose plan has a single step, and let the old
verification resolve as completed afterwards; its captured closure passes
the stale guard (2 less than 4) and increments the live cursor to 1 under
the one-step plan. -/
def c1Events : List Event :=
  [.startCameraClick true, .scanClick (some "img1"), .scanDone 0 (some planA),
   .nextClick, .nextClick, .verifyClick, .resetClick,
   .scanClick (some "img2"), .scanDone 1 (some planB),
   .verifyFire 0 (some "img3") { completed := true, feedback := "done" }]

/-- Scan, then verify the first step with the oracle answering
completed = false and feedback "loose screw". -/
def c2Events : List Event :=
  [.startCameraClick true, .scanClick (some "img1"), .scanDone 0 (some planA),
   .verifyClick, .verifyFire 0 (some "imgV") { completed := false, feedback := "loose screw" }]

/-- Event sequence realizing a closeInspector with an identify call still
outstanding: a verification is started and abandoned by a reset, a new scan
produces a plan, a first tap opens the inspector, the stale verification
callback resolves with a failed capture and silently forces the state back
to REPAIR_GUIDE, a second tap opens a new inspection, the first identify
result then lands in the new inspection (filling its card), the user closes
the inspector while the second identify call is still in flight. -/
def c5Events : List Event :=
  [.startCameraClick true, .scanClick (some "s1"), .scanDone 0 (some planA),
   .verifyClick, .resetClick, .scanClick (some "s2"), .scanDone 1 (some planB),
   .videoClick 10 10 rect0 (some "i1"),
   .verifyFire 0 none { completed := false, feedback := "ignored" },
   .videoClick 20 20 rect0 (some "i2"),
   .identifyDone 0 staleInfo,
   .closeClick]

/-- Event sequence on which a stale verification callback overwrites the
frozen frame while a scan call is in flight: verify, reset during
VERIFYING, scan a new frame, and let the old verification resolve as not
completed, which freezes its own checked frame over the scanned one. -/
def c6Events : List Event :=
  [.startCameraClick true, .scanClick (some "a1"), .scanDone 0 (some planA),
   .verifyClick, .resetClick, .scanClick (some "a2"),
   .verifyFire 0 (some "a3") { completed := false, feedback := "x" }]

/-- Reach the guide, then tap to inspect with the frame capture failing. -/
def c8Events : List Event :=
  [.startCameraClick true, .scanClick (some "img1"), .scanDone 0 (some planA),
   .videoClick 30 40 rect0 none]

theorem mem_of_mem_eraseIdx {α : Type} {l : List α} {n : Nat} {a : α}
    (h : a ∈ l.eraseIdx n) : a ∈ l := by
  induction l generalizing n with
  | nil => simp [List.eraseIdx] at h
  | cons b t ih =>
    cases n with
    | zero =>
      exact List.mem_cons_of_mem _ h
    | succ m =>
      rcases List.mem_cons.mp h with h1 | h2
      · exact h1 ▸ List.mem_cons_self _ _
      · exact List.mem_cons_of_mem _ (ih h2)

theorem countImage_cons (p : Pending) (l : List Pending) :
    countImage (p :: l) = (if p.isImage then 1 else 0) + countImage l := by
  simp only [countImage, List.filter_cons]
  split <;> simp [Nat.add_comm]

theorem countImage_append (l₁ l₂ : List Pending) :
    countImage (l₁ ++ l₂) = countImage l₁ + countImage l₂ := by
  simp [countImage, List.filter_append]

theorem countImage_eq_zero {l : List Pending} :
    countImage l = 0 ↔ ∀ p ∈ l, p.isImage = false := by
  induction l with
  | nil => simp [countImage]
  | cons a t ih =>
    rw [countImage_cons]
    cases ha : a.isImage <;> simp [ha, ih]

theorem countImage_eraseIdx_getElem {l : List Pending} {n : Nat} {p : Pending}
    (h : l[n]? = some p) :
    countImage l = countImage (l.eraseIdx n) + (if p.isImage then 1 else 0) := by
  induction l generalizing n with
  | nil => simp at h
  | cons a t ih =>
    cases n with
    | zero =>
      simp only [List.getElem?_cons_zero, Option.some.injEq] at h
      subst h
      simp [List.eraseIdx, countImage_cons, Nat.add_comm]
    | succ m =>
      simp only [List.getElem?_cons_succ] at h
      rw [List.eraseIdx, countImage_cons, countImage_cons, ih h, Nat.add_assoc]

theorem countImage_eraseIdx_le (l : List Pending) (n : Nat) :
    countImage (l.eraseIdx n) ≤ countImage l := by
  cases h : l[n]? with
  | none =>
    rw [List.eraseIdx_eq_self.mpr]
    exact List.getElem?_eq_none_iff.mp h
  | some p =>
    rw [countImage_eraseIdx_getElem h]
    omega

theorem no_image_of_eraseIdx {l : List Pending} {n : Nat} {p : Pending}
    (hle : countImage l ≤ 1) (h : l[n]? = some p) (him : p.isImage = true) :
    ∀ q ∈ l.eraseIdx n, q.isImage = false := by
  have heq := countImage_eraseIdx_getElem h
  rw [him, if_pos rfl] at heq
  exact countImage_eq_zero.mp (by omega)

theorem pendingOk_of_not_image {s : Session} {p : Pending} (h : p.isImage = false) :
    pendingOk s p := by
  cases p with
  | scan f => simp [Pending.isImage] at h
  | identify f => simp [Pending.isImage] at h
  | verify a b => trivial
  | ask a b => trivial

theorem pendingOk_congr {s t : Session} (hc : t.capturedImage = s.capturedImage)
    (ha : t.appState = s.appState) (hm : t.componentInfo = s.componentInfo)
    {p : Pending} (h : pendingOk s p) : pendingOk t p := by
  cases p <;> simp_all [pendingOk]

theorem no_image_of_state {s : Session} (hok : ∀ p ∈ s.pending, pendingOk s p)
    (h1 : s.appState ≠ AppState.ANALYZING) (h2 : s.appState ≠ AppState.INSPECTING) :
    ∀ p ∈ s.pending, p.isImage = false := by
  intro p hp
  have h := hok p hp
  cases p with
  | scan f => exact absurd h.2 h1
  | identify f => exact absurd h.2.1 h2
  | verify a b => rfl
  | ask a b => rfl

theorem ImgInv_congr {s t : Session} (hc : t.capturedImage = s.capturedImage)
    (ha : t.appState = s.appState) (hm : t.componentInfo = s.componentInfo)
    (hp : t.pending = s.pending) (h : ImgInv s) : ImgInv t := by
  obtain ⟨h1, h2, h3⟩ := h
  refine ⟨?_, ?_, ?_⟩
  · rw [hp]; exact h1
  · intro hne
    rw [ha] at hne
    rw [hm]
    exact h2 hne
  · intro p hpm
    rw [hp] at hpm
    exact pendingOk_congr hc ha hm (h3 p hpm)

theorem ImgInv_scanResolve {s : Session} (r : Option RepairPlan)
    (h0 : ∀ q ∈ s.pending, q.isImage = false)
    (hcz : s.componentInfo = none) :
    ImgInv (scanResolve s r) := by
  have hc : countImage s.pending = 0 := countImage_eq_zero.mpr h0
  cases r with
  | none =>
    simp only [scanResolve]
    exact ⟨by show countImage s.pending ≤ 1; omega, fun _ => hcz,
      fun q hq => pendingOk_of_not_image (h0 q hq)⟩
  | some plan =>
    simp only [scanResolve]
    exact ⟨by show countImage s.pending ≤ 1; omega, fun _ => hcz,
      fun q hq => pendingOk_of_not_image (h0 q hq)⟩

theorem ImgInv_next {s : Session} (ps : Option RepairPlan) (i : Nat)
    (hcnt : countImage s.pending ≤ 1) (hcz : s.componentInfo = none)
    (hni : ∀ p ∈ s.pending, p.isImage = false) :
    ImgInv (handleNextStepWith s ps i) := by
  cases ps with
  | none =>
    simp only [handleNextStepWith]
    exact ⟨hcnt, fun _ => hcz, fun p hp => pendingOk_of_not_image (hni p hp)⟩
  | some plan =>
    simp only [handleNextStepWith]
    split <;> exact ⟨hcnt, fun _ => hcz, fun p hp => pendingOk_of_not_image (hni p hp)⟩

theorem c6_preserved (s : Session) (e : Event) (hInv : ImgInv s)
    (hv : e.isVerifyFire = false) : ImgInv (applyEvent s e) := by
  obtain ⟨hcnt, hci, hok⟩ := hInv
  cases e with
  | startCameraClick granted =>
    simp only [applyEvent]
    split
    · rename_i hg
      have hni : ∀ p ∈ s.pending, p.isImage = false :=
        no_image_of_state hok (by simp [hg]) (by simp [hg])
      have hcz : s.componentInfo = none := hci (by simp [hg])
      cases granted <;>
        exact ⟨hcnt, fun _ => hcz, fun p hp => pendingOk_of_not_image (hni p hp)⟩
    · exact ⟨hcnt, hci, hok⟩
  | scanClick cap =>
    simp only [applyEvent]
    split
    · rename_i hg
      cases cap with
      | none => exact ⟨hcnt, hci, hok⟩
      | some f =>
        have hni : ∀ p ∈ s.pending, p.isImage = false :=
          no_image_of_state hok (by simp [hg]) (by simp [hg])
        have hcz : s.componentInfo = none := hci (by simp [hg])
        refine ⟨?_, fun _ => hcz, ?_⟩
        · show countImage (s.pending ++ [.scan f]) ≤ 1
          rw [countImage_append, countImage_eq_zero.mpr hni]
          have h1 : countImage [Pending.scan f] = 1 := rfl
          omega
        · intro p hp
          rcases List.mem_append.mp hp with h1 | h1
          · exact pendingOk_of_not_image (hni p h1)
          · rcases List.mem_singleton.mp h1 with rfl
            exact ⟨rfl, rfl⟩
    · exact ⟨hcnt, hci, hok⟩
  | scanDone n result =>
    simp only [applyEvent]
    cases hpn : s.pending[n]? with
    | none => exact ⟨hcnt, hci, hok⟩
    | some p =>
      cases p with
      | scan f =>
        have hmem : Pending.scan f ∈ s.pending := List.getElem?_mem hpn
        have hst : s.appState = AppState.ANALYZING := (hok _ hmem).2
        have hcz : s.componentInfo = none := hci (by simp [hst])
        have hni := no_image_of_eraseIdx hcnt hpn rfl
        exact ImgInv_scanResolve _ hni hcz
      | identify f => exact ⟨hcnt, hci, hok⟩
      | verify a b => exact ⟨hcnt, hci, hok⟩
      | ask a b => exact ⟨hcnt, hci, hok⟩
  | verifyClick =>
    simp only [applyEvent]
    split
    · rename_i hg
      obtain ⟨hg1, _⟩ := hg
      have hni : ∀ p ∈ s.pending, p.isImage = false :=
        no_image_of_state hok (by simp [hg1]) (by simp [hg1])
      have hcz : s.componentInfo = none := hci (by simp [hg1])
      refine ⟨?_, fun _ => hcz, ?_⟩
      · show countImage (s.pending ++ [.verify s.repairPlan s.currentStepIndex]) ≤ 1
        rw [countImage_append, countImage_eq_zero.mpr hni]
        have h1 : countImage [Pending.verify s.repairPlan s.currentStepIndex] = 0 := rfl
        omega
      · intro p hp
        rcases List.mem_append.mp hp with h1 | h1
        · exact pendingOk_of_not_image (hni p h1)
        · rcases List.mem_singleton.mp h1 with rfl
          trivial
    · exact ⟨hcnt, hci, hok⟩
  | verifyFire n cap result => simp [Event.isVerifyFire] at hv
  | nextClick =>
    simp only [applyEvent]
    split
    · rename_i hg
      have hni : ∀ p ∈ s.pending, p.isImage = false :=
        no_image_of_state hok (by simp [hg.1]) (by simp [hg.1])
      have hcz : s.componentInfo = none := hci (by simp [hg.1])
      exact ImgInv_next _ _ hcnt hcz hni
    · exact ⟨hcnt, hci, hok⟩
  | videoClick cx cy r cap =>
    simp only [applyEvent]
    unfold handleVideoClick
    split
    · rename_i hg
      have hni : ∀ p ∈ s.pending, p.isImage = false :=
        no_image_of_state hok (by simp [hg.1]) (by simp [hg.1])
      have hcz : s.componentInfo = none := hci (by simp [hg.1])
      cases cap with
      | none => exact ⟨hcnt, fun _ => hcz, fun p hp => pendingOk_of_not_image (hni p hp)⟩
      | some f =>
        refine ⟨?_, fun hst => absurd rfl hst, ?_⟩
        · show countImage (s.pending ++ [.identify f]) ≤ 1
          rw [countImage_append, countImage_eq_zero.mpr hni]
          have h1 : countImage [Pending.identify f] = 1 := rfl
          omega
        · intro p hp
          rcases List.mem_append.mp hp with h1 | h1
          · exact pendingOk_of_not_image (hni p h1)
          · rcases List.mem_singleton.mp h1 with rfl
            exact ⟨rfl, rfl, hcz⟩
    · exact ⟨hcnt, hci, hok⟩
  | identifyDone n info =>
    simp only [applyEvent]
    cases hpn : s.pending[n]? with
    | none => exact ⟨hcnt, hci, hok⟩
    | some p =>
      cases p with
      | identify f =>
        have hmem : Pending.identify f ∈ s.pending := List.getElem?_mem hpn
        have hst : s.appState = AppState.INSPECTING := (hok _ hmem).2.1
        have hni := no_image_of_eraseIdx hcnt hpn rfl
        refine ⟨?_, ?_, ?_⟩
        · show countImage (s.pending.eraseIdx n) ≤ 1
          rw [countImage_eq_zero.mpr hni]
          omega
        · intro h
          exact absurd hst h
        · intro q hq
          exact pendingOk_of_not_image (hni q hq)
      | scan f => exact ⟨hcnt, hci, hok⟩
      | verify a b => exact ⟨hcnt, hci, hok⟩
      | ask a b => exact ⟨hcnt, hci, hok⟩
  | closeClick =>
    simp only [applyEvent]
    split
    · rename_i hg
      obtain ⟨hg1, _, hg3⟩ := hg
      have hni : ∀ p ∈ s.pending, p.isImage = false := by
        intro p hp
        have h := hok p hp
        cases p with
        | scan f =>
          obtain ⟨h1, h2⟩ := h
          rw [hg1] at h2
          exact absurd h2 (by decide)
        | identify f => exact absurd h.2.2 hg3
        | verify a b => rfl
        | ask a b => rfl
      exact ⟨hcnt, fun _ => rfl, fun p hp => pendingOk_of_not_image (hni p hp)⟩
    · exact ⟨hcnt, hci, hok⟩
  | resetClick =>
    simp only [applyEvent]
    split
    · rename_i hg
      have hst1 : s.appState ≠ AppState.ANALYZING := by
        rcases hg with ⟨h1 | h1, _⟩ | h1 | h1 <;> simp [h1]
      have hst2 : s.appState ≠ AppState.INSPECTING := by
        rcases hg with ⟨h1 | h1, _⟩ | h1 | h1 <;> simp [h1]
      have hni := no_image_of_state hok hst1 hst2
      have hcz : s.componentInfo = none := hci hst2
      exact ⟨hcnt, fun _ => hcz, fun p hp => pendingOk_of_not_image (hni p hp)⟩
    · exact ⟨hcnt, hci, hok⟩
  | listenStart t =>
    simp only [applyEvent]
    split
    · have key : (startListening s t).capturedImage = s.capturedImage ∧
          (startListening s t).appState = s.appState ∧
          (startListening s t).componentInfo = s.componentInfo ∧
          (startListening s t).pending = s.pending := by
        unfold startListening
        split
        · exact ⟨rfl, rfl, rfl, rfl⟩
        · split
          · exact ⟨rfl, rfl, rfl, rfl⟩
          · exact ⟨rfl, rfl, rfl, rfl⟩
      exact ImgInv_congr key.1 key.2.1 key.2.2.1 key.2.2.2 ⟨hcnt, hci, hok⟩
    · exact ⟨hcnt, hci, hok⟩
  | listenStop =>
    simp only [applyEvent]
    split
    · unfold stopListening
      split
      · exact ⟨hcnt, hci, hok⟩
      · refine ⟨?_, hci, ?_⟩
        · show countImage (s.pending ++ [.ask s.repairPlan s.currentStepIndex]) ≤ 1
          rw [countImage_append]
          have h1 : countImage [Pending.ask s.repairPlan s.currentStepIndex] = 0 := rfl
          omega
        · intro p hp
          rcases List.mem_append.mp hp with h1 | h1
          · exact pendingOk_congr rfl rfl rfl (hok p h1)
          · rcases List.mem_singleton.mp h1 with rfl
            trivial
    · exact ⟨hcnt, hci, hok⟩
  | askDone n cap response =>
    simp only [applyEvent]
    cases hpn : s.pending[n]? with
    | none => exact ⟨hcnt, hci, hok⟩
    | some p =>
      cases p with
      | ask ps i =>
        have base : ImgInv { s with pending := s.pending.eraseIdx n } := by
          refine ⟨?_, hci, ?_⟩
          · show countImage (s.pending.eraseIdx n) ≤ 1
            exact le_trans (countImage_eraseIdx_le s.pending n) hcnt
          · intro p hp
            exact pendingOk_congr rfl rfl rfl (hok p (mem_of_mem_eraseIdx hp))
        unfold askResolve
        rcases cap with _ | c
        · exact base
        · rcases ps with _ | pl
          · exact base
          · exact ImgInv_congr rfl rfl rfl rfl base
      | scan f => exact ⟨hcnt, hci, hok⟩
      | identify f => exact ⟨hcnt, hci, hok⟩
      | verify a b => exact ⟨hcnt, hci, hok⟩


/-- Claim C1, evaluated at its failing input: after granting the camera,
scanning (five-step plan), advancing twice, starting a verification,
resetting during VERIFYING, scanning again (one-step plan), and letting the
stale verification callback resolve as completed, the session holds the
one-step plan with step cursor 1, violating the bound
stepCursor < len(plan.steps) while a plan is present. -/
theorem c1_cursor_out_of_bounds :
    (run initSession c1Events).repairPlan = some planB ∧
    planB.steps.length = 1 ∧
    (run initSession c1Events).currentStepIndex = 1 ∧
    ¬ (run initSession c1Events).currentStepIndex < planB.steps.length := by
  decide

/-- Claim C2, counterexample to the claim as stated: with oracle feedback
"loose screw" the recorded assistant response is
"Verification Info: loose screw", not the bare feedback string. -/
theorem c2_feedback_not_verbatim :
    (run initSession c2Events).assistantResponse
        = some "Verification Info: loose screw" ∧
    (run initSession c2Events).assistantResponse ≠ some "loose screw" ∧
    (run initSession c2Events).appState = AppState.REPAIR_GUIDE ∧
    (run initSession c2Events).currentStepIndex = 0 ∧
    (run initSession c2Events).capturedImage = some (dataUrl "imgV") := by
  decide

/-- Claim C2 (amended): a verification callback whose oracle result is
completed = false with feedback fb leaves the step cursor unchanged, sets
the assistant response to "Verification Info: " followed by fb, freezes the
checked frame, and returns to REPAIR_GUIDE. -/
theorem c2_verify_failure_effects (s : Session) (P : RepairPlan) (i : Nat)
    (f fb : String) :
    (verifyCallback s (some P) i (some f)
        { completed := false, feedback := fb }).currentStepIndex = s.currentStepIndex ∧
    (verifyCallback s (some P) i (some f)
        { completed := false, feedback := fb }).assistantResponse
        = some ("Verification Info: " ++ fb) ∧
    (verifyCallback s (some P) i (some f)
        { completed := false, feedback := fb }).capturedImage = some (dataUrl f) ∧
    (verifyCallback s (some P) i (some f)
        { completed := false, feedback := fb }).appState = AppState.REPAIR_GUIDE := by
  exact ⟨rfl, rfl, rfl, rfl⟩

/-- Claim C3: a verification callback with oracle result completed = true,
resolving with the captured plan and index matching the live session, moves
to COMPLETED when the cursor is at the last step, and otherwise increments
the cursor by exactly one, clears the frozen frame, and returns to
REPAIR_GUIDE. -/
theorem c3_verify_success (s : Session) (P : RepairPlan) (f fb : String)
    (hP : s.repairPlan = some P) :
    (s.currentStepIndex = P.steps.length - 1 →
      (verifyCallback s s.repairPlan s.currentStepIndex (some f)
          { completed := true, feedback := fb }).appState = AppState.COMPLETED) ∧
    (s.currentStepIndex < P.steps.length - 1 →
      (verifyCallback s s.repairPlan s.currentStepIndex (some f)
          { completed := true, feedback := fb }).currentStepIndex
          = s.currentStepIndex + 1 ∧
      (verifyCallback s s.repairPlan s.currentStepIndex (some f)
          { completed := true, feedback := fb }).capturedImage = none ∧
      (verifyCallback s s.repairPlan s.currentStepIndex (some f)
          { completed := true, feedback := fb }).appState = AppState.REPAIR_GUIDE) := by
  rw [hP]
  constructor
  · intro hlast
    simp only [verifyCallback, handleNextStepWith, if_true]
    rw [hlast, if_neg (lt_irrefl _)]
  · intro hlt
    simp only [verifyCallback, handleNextStepWith, if_true]
    rw [if_pos hlt]
    exact ⟨rfl, rfl, rfl⟩

/-- Witness for c3_verify_success at the concrete guide session. -/
theorem c3_verify_success_witness :
    guideSession.repairPlan = some planA ∧
    ((guideSession.currentStepIndex = planA.steps.length - 1 →
      (verifyCallback guideSession guideSession.repairPlan guideSession.currentStepIndex
          (some "f") { completed := true, feedback := "ok" }).appState
          = AppState.COMPLETED) ∧
    (guideSession.currentStepIndex < planA.steps.length - 1 →
      (verifyCallback guideSession guideSession.repairPlan guideSession.currentStepIndex
          (some "f") { completed := true, feedback := "ok" }).currentStepIndex
          = guideSession.currentStepIndex + 1 ∧
      (verifyCallback guideSession guideSession.repairPlan guideSession.currentStepIndex
          (some "f") { completed := true, feedback := "ok" }).capturedImage = none ∧
      (verifyCallback guideSession guideSession.repairPlan guideSession.currentStepIndex
          (some "f") { completed := true, feedback := "ok" }).appState
          = AppState.REPAIR_GUIDE)) :=
  ⟨by decide, c3_verify_success guideSession planA "f" "ok" (by decide)⟩

/-- Claim C4, counterexample to the claim as stated: after a successful
scan the frozen frame is not cleared; the scanned frame is still shown. -/
theorem c4_frozen_not_cleared :
    (run initSession warmupEvents).appState = AppState.REPAIR_GUIDE ∧
    (run initSession warmupEvents).repairPlan = some planA ∧
    (run initSession warmupEvents).currentStepIndex = 0 ∧
    (run initSession warmupEvents).capturedImage = some (dataUrl "img1") ∧
    (run initSession warmupEvents).capturedImage ≠ none := by
  decide

/-- Claim C4 (amended): resolving a pending scan with a well-formed plan
sets the plan, resets the cursor to 0 and enters REPAIR_GUIDE, while the
frozen frame is left unchanged (it keeps showing the scanned frame). -/
theorem c4_scan_success_effects (s : Session) (n : Nat) (f : String) (P : RepairPlan)
    (hp : s.pending[n]? = some (.scan f)) (hne : P.steps ≠ []) :
    (applyEvent s (.scanDone n (some P))).repairPlan = some P ∧
    (applyEvent s (.scanDone n (some P))).currentStepIndex = 0 ∧
    (applyEvent s (.scanDone n (some P))).appState = AppState.REPAIR_GUIDE ∧
    (applyEvent s (.scanDone n (some P))).capturedImage = s.capturedImage := by
  have hne2 : ¬ P.steps.isEmpty = true := by
    simpa [List.isEmpty_iff] using hne
  simp only [applyEvent, hp]
  rw [if_neg hne2]
  exact ⟨rfl, rfl, rfl, rfl⟩

/-- Witness for c4_scan_success_effects at a session with a pending scan. -/
theorem c4_scan_success_effects_witness :
    scanningSession.pending[0]? = some (Pending.scan "img1") ∧
    planA.steps ≠ [] ∧
    ((applyEvent scanningSession (.scanDone 0 (some planA))).repairPlan = some planA ∧
    (applyEvent scanningSession (.scanDone 0 (some planA))).currentStepIndex = 0 ∧
    (applyEvent scanningSession (.scanDone 0 (some planA))).appState
        = AppState.REPAIR_GUIDE ∧
    (applyEvent scanningSession (.scanDone 0 (some planA))).capturedImage
        = scanningSession.capturedImage) :=
  ⟨by decide, by decide,
    c4_scan_success_effects scanningSession 0 "img1" planA (by decide) (by decide)⟩

/-- Claim C5, evaluated at its failing input: after c5Events the inspector
has been closed while an identify call for frame i2 is still outstanding;
when that call then resolves, the session, still in REPAIR_GUIDE with the
inspector closed, has componentInfo overwritten with the stale result
instead of discarding it. -/
theorem c5_stale_identify_applied :
    (run initSession c5Events).appState = AppState.REPAIR_GUIDE ∧
    (run initSession c5Events).inspectorPoint = none ∧
    (run initSession c5Events).componentInfo = none ∧
    (run initSession c5Events).pending = [Pending.identify "i2"] ∧
    (applyEvent (run initSession c5Events) (.identifyDone 0 staleInfo)).componentInfo
        = some staleInfo ∧
    (applyEvent (run initSession c5Events) (.identifyDone 0 staleInfo)).appState
        = AppState.REPAIR_GUIDE := by
  decide

/-- Claim C6, counterexample to the claim as stated: after c6Events a scan
call for frame a2 is still in flight while the frozen frame shows a3, the
frame checked by a stale verification callback. -/
theorem c6_inflight_frame_mismatch :
    (run initSession c6Events).pending = [Pending.scan "a2"] ∧
    (run initSession c6Events).capturedImage = some (dataUrl "a3") ∧
    dataUrl "a3" ≠ dataUrl "a2" := by
  decide

/-- Claim C6 (amended): the frozen-frame integrity invariant ImgInv holds
initially and is preserved by every event except the firing of a
verification timeout callback: whenever a scan or identify oracle call is
in flight, the frozen frame holds exactly the data url of the frame that
call sent, having been set before the call was issued. -/
theorem c6_frozen_matches_inflight :
    ImgInv initSession ∧
    ∀ (s : Session) (e : Event), ImgInv s → e.isVerifyFire = false →
      ImgInv (applyEvent s e) :=
  ⟨⟨by decide, fun _ => rfl, by intro p hp; simp [initSession] at hp⟩, c6_preserved⟩

/-- Witness for c6_frozen_matches_inflight: apply the preservation half to
the initial session and a concrete scan event. -/
theorem c6_frozen_matches_inflight_witness :
    ImgInv initSession ∧
    Event.isVerifyFire (.scanClick (some "img1")) = false ∧
    ImgInv (applyEvent initSession (.scanClick (some "img1"))) :=
  ⟨c6_frozen_matches_inflight.1, rfl,
    c6_frozen_matches_inflight.2 initSession (.scanClick (some "img1"))
      c6_frozen_matches_inflight.1 rfl⟩

/-- Claim C7: the coordinate mapper agrees with the formula of the spec,
and the two concrete instances hold: the center of a 200 by 400 container
maps to (50, 50) and the origin maps to (0, 0). -/
theorem c7_coordinate_mapper :
    (∀ (cx cy : ℚ) (r : Rect), mapCoord cx cy r = specNormPoint cx cy r) ∧
    mapCoord 100 200 { left := 0, top := 0, width := 200, height := 400 }
        = { x := 50, y := 50 } ∧
    mapCoord 0 0 { left := 0, top := 0, width := 200, height := 400 }
        = { x := 0, y := 0 } := by
  refine ⟨?_, ?_, ?_⟩
  · intro cx cy r
    simp only [mapCoord, specNormPoint]
    congr 1 <;> ring
  · simp only [mapCoord, NormPoint.mk.injEq]
    norm_num
  · simp only [mapCoord, NormPoint.mk.injEq]
    norm_num

/-- Claim C8, counterexample to the claim as stated: a tap whose frame
capture fails returns to REPAIR_GUIDE, but the inspector point set before
the capture attempt is not cleared. -/
theorem c8_point_not_cleared :
    (run initSession c8Events).appState = AppState.REPAIR_GUIDE ∧
    (run initSession c8Events).inspectorPoint = some { x := 30, y := 40 } ∧
    (run initSession c8Events).inspectorPoint ≠ none := by
  have hpt : (run initSession c8Events).inspectorPoint = some (mapCoord 30 40 rect0) := rfl
  have hmap : mapCoord 30 40 rect0 = { x := 30, y := 40 } := by
    simp only [mapCoord, rect0, NormPoint.mk.injEq]
    norm_num
  refine ⟨by decide, ?_, ?_⟩
  · rw [hpt, hmap]
  · rw [hpt, hmap]
    simp

/-- Claim C8 (amended): if frame capture fails during inspect, the session
reverts to REPAIR_GUIDE without opening the inspector flow (componentInfo,
the frozen frame and the pending calls are untouched), but inspectorPoint
remains set to the tapped point. -/
theorem c8_capture_fail_effects (s : Session) (cx cy : ℚ) (r : Rect)
    (h1 : s.appState = AppState.REPAIR_GUIDE) (h2 : s.repairPlan ≠ none) :
    (handleVideoClick s cx cy r none).appState = AppState.REPAIR_GUIDE ∧
    (handleVideoClick s cx cy r none).inspectorPoint = some (mapCoord cx cy r) ∧
    (handleVideoClick s cx cy r none).componentInfo = s.componentInfo ∧
    (handleVideoClick s cx cy r none).capturedImage = s.capturedImage ∧
    (handleVideoClick s cx cy r none).pending = s.pending := by
  simp only [handleVideoClick]
  rw [if_pos ⟨h1, h2⟩]
  exact ⟨rfl, rfl, rfl, rfl, rfl⟩

/-- Witness for c8_capture_fail_effects at the concrete guide session. -/
theorem c8_capture_fail_effects_witness :
    guideSession.appState = AppState.REPAIR_GUIDE ∧
    guideSession.repairPlan ≠ none ∧
    ((handleVideoClick guideSession 30 40 rect0 none).appState
        = AppState.REPAIR_GUIDE ∧
    (handleVideoClick guideSession 30 40 rect0 none).inspectorPoint
        = some (mapCoord 30 40 rect0) ∧
    (handleVideoClick guideSession 30 40 rect0 none).componentInfo
        = guideSession.componentInfo ∧
    (handleVideoClick guideSession 30 40 rect0 none).capturedImage
        = guideSession.capturedImage ∧
    (handleVideoClick guideSession 30 40 rect0 none).pending
        = guideSession.pending) :=
  ⟨by decide, by decide,
    c8_capture_fail_effects guideSession 30 40 rect0 (by decide) (by decide)⟩

/-- Claim C9, counterexample to the claim as stated: startListening with no
media stream still flips the listening flag and overwrites the assistant
response, so it is not a complete no-op. -/
theorem c9_not_noop :
    initSession.hasStream = false ∧
    initSession.isListening = false ∧
    (startListening initSession true).isListening = true ∧
    initSession.assistantResponse = none ∧
    (startListening initSession true).assistantResponse = some "Listening..." := by
  decide

/-- Claim C9 (amended): startListening with the stream absent or without an
audio track starts no recording and creates no recorder, but it does set
isListening to true and the assistant response to "Listening..." before the
early returns; every other session field is unchanged. -/
theorem c9_silent_failure_effects (s : Session) (t : Bool)
    (h : s.hasStream = false ∨ t = false) :
    (startListening s t).recording = s.recording ∧
    (startListening s t).mediaRecorderSet = s.mediaRecorderSet ∧
    (startListening s t).isListening = true ∧
    (startListening s t).assistantResponse = some "Listening..." ∧
    (startListening s t).appState = s.appState ∧
    (startListening s t).repairPlan = s.repairPlan ∧
    (startListening s t).currentStepIndex = s.currentStepIndex ∧
    (startListening s t).capturedImage = s.capturedImage ∧
    (startListening s t).inspectorPoint = s.inspectorPoint ∧
    (startListening s t).componentInfo = s.componentInfo ∧
    (startListening s t).pending = s.pending ∧
    (startListening s t).errorMsg = s.errorMsg := by
  have key : startListening s t
      = { s with assistantResponse := some "Listening...", isListening := true } := by
    rcases h with h | h
    · simp [startListening, h]
    · cases hs : s.hasStream <;> simp [startListening, h, hs]
  rw [key]
  exact ⟨rfl, rfl, rfl, rfl, rfl, rfl, rfl, rfl, rfl, rfl, rfl, rfl⟩

/-- Witness for c9_silent_failure_effects at the initial session. -/
theorem c9_silent_failure_effects_witness :
    (initSession.hasStream = false ∨ true = false) ∧
    ((startListening initSession true).recording = initSession.recording ∧
    (startListening initSession true).mediaRecorderSet = initSession.mediaRecorderSet ∧
    (startListening initSession true).isListening = true ∧
    (startListening initSession true).assistantResponse = some "Listening..." ∧
    (startListening initSession true).appState = initSession.appState ∧
    (startListening initSession true).repairPlan = initSession.repairPlan ∧
    (startListening initSession true).currentStepIndex = initSession.currentStepIndex ∧
    (startListening initSession true).capturedImage = initSession.capturedImage ∧
    (startListening initSession true).inspectorPoint = initSession.inspectorPoint ∧
    (startListening initSession true).componentInfo = initSession.componentInfo ∧
    (startListening initSession true).pending = initSession.pending ∧
    (startListening initSession true).errorMsg = initSession.errorMsg) :=
  ⟨Or.inl (by decide), c9_silent_failure_effects initSession true (Or.inl (by decide))⟩

/-- Claim C10: on a tap strictly outside the container box, the mapping
applies no clamping: the stored inspector point is the raw mapped point and
one of its components is below 0 or above 100. -/
theorem c10_unclamped (s : Session) (cx cy : ℚ) (r : Rect) (cap : Option String)
    (h1 : s.appState = AppState.REPAIR_GUIDE) (h2 : s.repairPlan ≠ none)
    (hw : 0 < r.width) (hh : 0 < r.height)
    (hout : cx < r.left ∨ r.left + r.width < cx ∨ cy < r.top ∨ r.top + r.height < cy) :
    (handleVideoClick s cx cy r cap).inspectorPoint = some (mapCoord cx cy r) ∧
    ((mapCoord cx cy r).x < 0 ∨ 100 < (mapCoord cx cy r).x ∨
      (mapCoord cx cy r).y < 0 ∨ 100 < (mapCoord cx cy r).y) := by
  constructor
  · simp only [handleVideoClick]
    rw [if_pos ⟨h1, h2⟩]
    cases cap <;> rfl
  · simp only [mapCoord]
    rcases hout with h | h | h | h
    · left
      have hx : cx - r.left < 0 := by linarith
      have hd : (cx - r.left) / r.width < 0 := div_neg_of_neg_of_pos hx hw
      nlinarith
    · right; left
      have hq : 1 < (cx - r.left) / r.width := (one_lt_div hw).mpr (by linarith)
      nlinarith
    · right; right; left
      have hy : cy - r.top < 0 := by linarith
      have hd : (cy - r.top) / r.height < 0 := div_neg_of_neg_of_pos hy hh
      nlinarith
    · right; right; right
      have hq : 1 < (cy - r.top) / r.height := (one_lt_div hh).mpr (by linarith)
      nlinarith

/-- Witness for c10_unclamped: a tap 10 pixels left of the container. -/
theorem c10_unclamped_witness :
    guideSession.appState = AppState.REPAIR_GUIDE ∧
    guideSession.repairPlan ≠ none ∧
    (0 : ℚ) < rect0.width ∧
    (0 : ℚ) < rect0.height ∧
    ((-10 : ℚ) < rect0.left ∨ rect0.left + rect0.width < -10 ∨
      (50 : ℚ) < rect0.top ∨ rect0.top + rect0.height < 50) ∧
    ((handleVideoClick guideSession (-10) 50 rect0 none).inspectorPoint
        = some (mapCoord (-10) 50 rect0) ∧
    ((mapCoord (-10) 50 rect0).x < 0 ∨ 100 < (mapCoord (-10) 50 rect0).x ∨
      (mapCoord (-10) 50 rect0).y < 0 ∨ 100 < (mapCoord (-10) 50 rect0).y)) :=
  ⟨by decide, by decide, by decide, by decide, by decide,
    c10_unclamped guideSession (-10) 50 rect0 none (by decide) (by decide)
      (by decide) (by decide) (by decide)⟩

end OmniFix
